import Mathlib

/-!
Shallow embedding of the background order-reconciliation subsystem of the
go-shop repository: the durable order store operations
(`GetNewOrders`, `UpdateOrderStatus`, `SetOrderStatusInvalid`,
`GetStaleProcessingOrders` from the repository layer), the dispatch loop
(`ProcessOrders`, `fetchAndQueueOrders`, `fetchAndQueueStaleOrders`) and the
worker/accrual-client logic (`worker`, `fetchAccrualForOrder`) from the
services layer.

Modelling conventions:
* SQL `float` columns (accrual, balances) are modelled as `Rat`; the claims
  only add and compare values, where rationals agree with IEEE doubles on
  the small integral values involved.
* Timestamps are abstract `Int` time points.
* The database is a pair of lists of rows (`users`, `orders`); SQL `UPDATE`
  is a `List.map` over the rows, SQL `SELECT ... WHERE` a `List.filter`,
  and a scalar subquery a `List.find?`.
* HTTP and statement execution are made deterministic by explicit oracles:
  an `HTTPResult` per accrual query and an `ExecPlan` saying which SQL
  statements succeed.
-/

/-- Row of the `orders` table: `order_number, status, accrual, uploaded_at,
last_changed_at, login_users` (also the `models.Order` shape scanned from it). -/
structure Order where
  number : String
  status : String
  accrual : Rat
  uploadedAt : Int
  lastChangedAt : Int
  loginUsers : String
deriving DecidableEq, Repr

/-- Row of the `users` table: `login, password, current_balance, withdrawn`. -/
structure User where
  login : String
  password : String
  currentBalance : Rat
  withdrawn : Rat
deriving DecidableEq, Repr

/-- The durable store state: the two tables the subsystem touches. -/
structure DB where
  users : List User
  orders : List Order
deriving DecidableEq, Repr

/-- Status of the order row with the given number, if present. -/
def orderStatus (db : DB) (number : String) : Option String :=
  (db.orders.find? (fun o => o.number = number)).map (fun o => o.status)

/-- Committed point value of the order row with the given number, if present. -/
def orderAccrual (db : DB) (number : String) : Option Rat :=
  (db.orders.find? (fun o => o.number = number)).map (fun o => o.accrual)

/-- Last-status-change timestamp of the order row with the given number. -/
def orderLastChanged (db : DB) (number : String) : Option Int :=
  (db.orders.find? (fun o => o.number = number)).map (fun o => o.lastChangedAt)

/-- Current balance of the user row with the given login, if present. -/
def userBalance (db : DB) (login : String) : Option Rat :=
  (db.users.find? (fun u => u.login = login)).map (fun u => u.currentBalance)

/-- Embedding of `dbStorage.GetNewOrders`: the single statement
`UPDATE orders SET status = 'PROCESSING' WHERE status = 'NEW'
RETURNING order_number, status, accrual, uploaded_at`.
Returns the updated store and the scanned rows. The `RETURNING` list omits
`last_changed_at`, so the scanned `models.Order` carries the zero value
there (modelled as `0`); only `status` is written, the row's
`last_changed_at` column is untouched. -/
def GetNewOrders (db : DB) : DB × List Order :=
  (⟨db.users,
    db.orders.map (fun o =>
      if o.status = "NEW" then { o with status := "PROCESSING" } else o)⟩,
   (db.orders.filter (fun o => o.status = "NEW")).map (fun o =>
      { o with status := "PROCESSING", lastChangedAt := 0 }))

/-- Effect of the first statement of `dbStorage.UpdateOrderStatus`:
`UPDATE orders SET status = $1, accrual = $2 WHERE order_number = $3`. -/
def applyOrderRowUpdate (orderNumber status : String) (accrual : Rat)
    (db : DB) : DB :=
  ⟨db.users,
   db.orders.map (fun o =>
     if o.number = orderNumber then { o with status := status, accrual := accrual }
     else o)⟩

/-- Effect of the second statement of `dbStorage.UpdateOrderStatus`:
`UPDATE users SET current_balance = current_balance + $1 WHERE login =
(SELECT login_users FROM orders WHERE order_number = $2)`. -/
def applyBalanceCredit (orderNumber : String) (accrual : Rat) (db : DB) : DB :=
  let owner := (db.orders.find? (fun o => o.number = orderNumber)).map
    (fun o => o.loginUsers)
  ⟨db.users.map (fun u =>
     if some u.login = owner then
       { u with currentBalance := u.currentBalance + accrual }
     else u),
   db.orders⟩

/-- Which steps of a store call succeed; models transient database errors. -/
structure ExecPlan where
  beginOk : Bool
  orderRowOk : Bool
  balanceOk : Bool
  commitOk : Bool
deriving DecidableEq, Repr

/-- The plan on which every step succeeds. -/
def ExecPlan.allOk : ExecPlan := ⟨true, true, true, true⟩

/-- Embedding of `dbStorage.UpdateOrderStatus` with explicit statement
outcomes. The Go code opens `tx, _ := s.db.Begin()` but then issues both
`UPDATE` statements through `s.db.ExecContext` — on the pool, not on `tx` —
so under database/sql semantics each statement runs in its own implicit
transaction and is durable as soon as it succeeds; `tx.Commit()` commits an
empty transaction and `defer tx.Rollback()` rolls nothing back. Returns the
resulting store state and `true` iff the call returned without error. -/
def UpdateOrderStatusRun (plan : ExecPlan) (orderNumber status : String)
    (accrual : Rat) (db : DB) : DB × Bool :=
  if !plan.beginOk then (db, false)
  else if !plan.orderRowOk then (db, false)
  else
    let db1 := applyOrderRowUpdate orderNumber status accrual db
    if !plan.balanceOk then (db1, false)
    else
      let db2 := applyBalanceCredit orderNumber accrual db1
      (db2, plan.commitOk)

/-- Embedding of `dbStorage.UpdateOrderStatus` on the error-free path. -/
def UpdateOrderStatus (orderNumber status : String) (accrual : Rat)
    (db : DB) : DB :=
  (UpdateOrderStatusRun ExecPlan.allOk orderNumber status accrual db).1

/-- Embedding of `dbStorage.SetOrderStatusInvalid`:
`UPDATE orders SET status = 'INVALID' WHERE order_number = $1`. -/
def SetOrderStatusInvalid (orderNumber : String) (db : DB) : DB :=
  ⟨db.users,
   db.orders.map (fun o =>
     if o.number = orderNumber then { o with status := "INVALID" } else o)⟩

/-- Embedding of `dbStorage.GetStaleProcessingOrders`: the read-only query
`SELECT order_number, status, accrual, uploaded_at, last_changed_at FROM
orders WHERE status = 'PROCESSING' AND last_changed_at < NOW() - $1`,
evaluated at current time `now`. Returns the (unchanged) store and the
selected rows. -/
def GetStaleProcessingOrders (now staleThreshold : Int) (db : DB) :
    DB × List Order :=
  (db,
   db.orders.filter (fun o =>
     o.status = "PROCESSING" ∧ o.lastChangedAt < now - staleThreshold))

/-- The staleness threshold used by `fetchAndQueueStaleOrders`
(`time.Minute * 2`), in seconds. -/
def staleThreshold : Int := 120

/-- Embedding of `orderProcessor.fetchAndQueueOrders`: claim the `NEW`
orders and append each claimed row's number to the work queue. -/
def fetchAndQueueOrders (db : DB) (queue : List String) :
    DB × List String :=
  ((GetNewOrders db).1, queue ++ (GetNewOrders db).2.map (fun o => o.number))

/-- Embedding of `orderProcessor.fetchAndQueueStaleOrders`: select the stale
`PROCESSING` orders at time `now` and append each number to the work queue. -/
def fetchAndQueueStaleOrders (now : Int) (db : DB) (queue : List String) :
    DB × List String :=
  ((GetStaleProcessingOrders now staleThreshold db).1,
   queue ++ (GetStaleProcessingOrders now staleThreshold db).2.map
     (fun o => o.number))

/-- The `models.AccrualResponse` decoded from the accrual service's JSON body
(`order`, `status`, `accrual` fields). -/
structure AccrualResponse where
  orderNumber : String
  status : String
  accrual : Rat
deriving DecidableEq, Repr

/-- Outcome of decoding an HTTP response body with Go's `encoding/json`:
either a decoded `AccrualResponse` (a body missing fields, such as `{}`,
decodes successfully to the zero value) or a decode failure. -/
inductive DecodeResult where
  | ok (resp : AccrualResponse)
  | fail
deriving DecidableEq, Repr

/-- Outcome of one `http.Get` to the accrual service: a transport error
(service unreachable) or a response with a status code and a body. -/
inductive HTTPResult where
  | transportErr
  | response (statusCode : Nat) (body : DecodeResult)
deriving DecidableEq, Repr

/-- The zero value of `models.AccrualResponse`, i.e. what
`json.NewDecoder(resp.Body).Decode` produces from a well-formed 200 body
that lacks the `order`, `status` and `accrual` fields (for example `{}`). -/
def zeroAccrualResponse : AccrualResponse := ⟨"", "", 0⟩

/-- Embedding of `fetchAccrualForOrder`: propagate a transport error, reject
any status code other than 200, then decode the body; the decoded response
is returned exactly when decoding succeeds (on a decode failure the Go code
returns the non-nil decode error alongside the partially-filled struct, so
the caller sees an error). -/
def fetchAccrualForOrder (http : HTTPResult) : Except String AccrualResponse :=
  match http with
  | HTTPResult.transportErr => Except.error "transport error"
  | HTTPResult.response code body =>
    if code ≠ 200 then Except.error "received non-200 response"
    else
      match body with
      | DecodeResult.ok resp => Except.ok resp
      | DecodeResult.fail => Except.error "decode error"

/-- One store write issued by a worker while resolving an item. -/
inductive StoreWrite where
  | setInvalid (orderNumber : String)
  | updateStatus (orderNumber status : String) (accrual : Rat)
deriving DecidableEq, Repr

/-- Result of a worker resolving one dequeued item: the store state
afterwards, the number of accrual queries made, the number of fixed backoff
sleeps taken, and the store writes issued (in order). -/
structure WorkerResult where
  db : DB
  queries : Nat
  sleeps : Nat
  writes : List StoreWrite
deriving DecidableEq, Repr

/-- Embedding of the inner retry loop of `orderProcessor.worker` for one
dequeued `orderID`. The source's loop counter `retryCount` (starting at 0,
guard `retryCount < 3`) is represented by the remaining retry budget
`remaining = 3 - retryCount`, so the guard becomes `remaining > 0` and the
increment becomes a decrement; `att` is the attempt index and `http att` is
what the accrual service answers on the `att`-th query. On a fetch error
the loop breaks with no write; on `REGISTERED`/`PROCESSING` it sleeps and
retries while budget remains, else breaks with no write; on `INVALID` it
calls `SetOrderStatusInvalid` with the dequeued `orderID`; on any other
status it calls `UpdateOrderStatus` with the response's own order number,
status and accrual. -/
def workerLoop (http : Nat → HTTPResult) (orderID : String) :
    Nat → Nat → DB → WorkerResult
  | remaining, att, db =>
    match fetchAccrualForOrder (http att) with
    | Except.error _ => ⟨db, 1, 0, []⟩
    | Except.ok resp =>
      if resp.status = "REGISTERED" ∨ resp.status = "PROCESSING" then
        match remaining with
        | r + 1 =>
          let rest := workerLoop http orderID r (att + 1) db
          ⟨rest.db, rest.queries + 1, rest.sleeps + 1, rest.writes⟩
        | 0 => ⟨db, 1, 0, []⟩
      else if resp.status = "INVALID" then
        ⟨SetOrderStatusInvalid orderID db, 1, 0, [StoreWrite.setInvalid orderID]⟩
      else
        ⟨UpdateOrderStatus resp.orderNumber resp.status resp.accrual db, 1, 0,
         [StoreWrite.updateStatus resp.orderNumber resp.status resp.accrual]⟩

/-- Embedding of one full item resolution by `orderProcessor.worker`: the
retry loop entered with `retryCount = 0` (full budget of 3 retries) on the
first query. -/
def worker (http : Nat → HTTPResult) (orderID : String) (db : DB) :
    WorkerResult :=
  workerLoop http orderID 3 0 db

/-- One iteration of the `select` in `orderProcessor.ProcessOrders`: either
the context's cancellation fires or the ticker fires at time `now`. -/
inductive LoopEvent where
  | cancel
  | tick (now : Int)
deriving DecidableEq, Repr

/-- Observable outcome of running the dispatch loop over a schedule of
events: the store state, the full sequence of identifiers ever enqueued,
how many ticks were served, whether the work queue was closed, whether
`wg.Wait()` returned (every worker finished its current item and observed
the closed queue), and whether `ProcessOrders` itself returned. -/
structure LoopOutcome where
  db : DB
  enqueued : List String
  ticks : Nat
  queueClosed : Bool
  workersJoined : Bool
  returned : Bool
deriving DecidableEq, Repr

/-- One ticker firing in `ProcessOrders`: `fetchAndQueueOrders` then
`fetchAndQueueStaleOrders`, each appending to the shared queue. -/
def dispatchTick (now : Int) (db : DB) (queue : List String) :
    DB × List String :=
  fetchAndQueueStaleOrders now (fetchAndQueueOrders db queue).1
    (fetchAndQueueOrders db queue).2

/-- Embedding of the `for`/`select` loop of `orderProcessor.ProcessOrders`
over an explicit schedule of events. On `cancel` the loop executes
`close(orderChan)` then `wg.Wait()` — each worker drains the closed queue
and exits — and then returns `ctx.Err()`; the remaining schedule is never
looked at, so no later tick is served and nothing is enqueued after the
close. On a tick it runs the two fetch-and-enqueue steps and continues. -/
def ProcessOrders (events : List LoopEvent) (db : DB) (queue : List String)
    (ticks : Nat) : LoopOutcome :=
  match events with
  | [] => ⟨db, queue, ticks, false, false, false⟩
  | LoopEvent.cancel :: _ => ⟨db, queue, ticks, true, true, true⟩
  | LoopEvent.tick now :: rest =>
    ProcessOrders rest (dispatchTick now db queue).1
      (dispatchTick now db queue).2 (ticks + 1)

/-- The tick-only semantics of the dispatch loop: the state reached by
serving a schedule of events with no cancellation handling at all. Used to
express that a cancelled run is determined by the events before `cancel`. -/
def runTicks (events : List LoopEvent) (db : DB) (queue : List String)
    (ticks : Nat) : DB × List String × Nat :=
  match events with
  | [] => (db, queue, ticks)
  | LoopEvent.cancel :: rest => runTicks rest db queue ticks
  | LoopEvent.tick now :: rest =>
    runTicks rest (dispatchTick now db queue).1
      (dispatchTick now db queue).2 (ticks + 1)

/-- One operation of the reconciliation subsystem against the store, as the
claims' transition system: a dispatch-loop claim (`GetNewOrders`), a
stale-reclaim read (`GetStaleProcessingOrders`, which only enqueues), or a
worker finalization of a dequeued `orderID` driven by the accrual response
it received (the `INVALID` / other-status branches of `worker`). -/
inductive SubsystemOp where
  | claim
  | staleReclaim (now : Int)
  | finalize (orderID : String) (resp : AccrualResponse)
deriving DecidableEq, Repr

/-- Effect of one subsystem operation on the store. `claim` is the write of
`GetNewOrders`; `staleReclaim` is a pure read; `finalize` follows the
branch structure of `worker` for a response that is out of the retry
statuses: `SetOrderStatusInvalid orderID` on `INVALID`, otherwise
`UpdateOrderStatus` with the response's fields, and no write at all on
`REGISTERED`/`PROCESSING` (retry/abandon). -/
def opStep (op : SubsystemOp) (db : DB) : DB :=
  match op with
  | SubsystemOp.claim => (GetNewOrders db).1
  | SubsystemOp.staleReclaim now => (GetStaleProcessingOrders now staleThreshold db).1
  | SubsystemOp.finalize orderID resp =>
    if resp.status = "REGISTERED" ∨ resp.status = "PROCESSING" then db
    else if resp.status = "INVALID" then SetOrderStatusInvalid orderID db
    else UpdateOrderStatus resp.orderNumber resp.status resp.accrual db

/-- Iterated subsystem operations, first element applied first. -/
def runOps (ops : List SubsystemOp) (db : DB) : DB :=
  ops.foldl (fun s op => opStep op s) db

/-- User fixture for concrete scenarios: login `alice`, balance `0`. -/
def alice : User := ⟨"alice", "pw", 0, 0⟩

/-- Order fixture: a `PROCESSING` order owned by `alice`, uploaded at time
`5`, last changed at time `7`. -/
def orderA : Order := ⟨"79927398713", "PROCESSING", 0, 5, 7, "alice"⟩

/-- Store fixture holding `alice` and `orderA`. -/
def dbA : DB := ⟨[alice], [orderA]⟩

/-- State after a worker finalizes `orderA` as scored `PROCESSED` with 500
points. -/
def dbOnce : DB := UpdateOrderStatus "79927398713" "PROCESSED" 500 dbA

/-- State after the same finalization runs a second time with the same
accrual result (a stale-reclaim race or a re-run after a partial failure). -/
def dbTwice : DB := UpdateOrderStatus "79927398713" "PROCESSED" 500 dbOnce

/-- Claim C1: the claim fails on the code. Finalizing the same scored accrual
result a second time leaves the committed point value at 500 but credits
the owner's balance again (500 then 1000): the balance-credit statement is
an unconditional increment keyed only on the order number, so a re-run
double-credits. Re-running the `INVALID` finalization, by contrast, is
idempotent. -/
theorem c1_refinalization_double_credits :
    orderAccrual dbOnce "79927398713" = some 500 ∧
    userBalance dbOnce "alice" = some 500 ∧
    orderAccrual dbTwice "79927398713" = some 500 ∧
    userBalance dbTwice "alice" = some 1000 ∧
    SetOrderStatusInvalid "79927398713" (SetOrderStatusInvalid "79927398713" dbA)
      = SetOrderStatusInvalid "79927398713" dbA := by
  refine ⟨by decide, ?_, by decide, ?_, by decide⟩
  · simp [dbOnce, UpdateOrderStatus, UpdateOrderStatusRun, ExecPlan.allOk,
      applyOrderRowUpdate, applyBalanceCredit, userBalance, dbA, alice, orderA]
  · simp [dbTwice, dbOnce, UpdateOrderStatus, UpdateOrderStatusRun,
      ExecPlan.allOk, applyOrderRowUpdate, applyBalanceCredit, userBalance,
      dbA, alice, orderA]
    norm_num

/-- Statement-failure plan where the balance-credit UPDATE fails after the
order-row UPDATE succeeded. -/
def planBalanceFails : ExecPlan := ⟨true, true, false, true⟩

/-- Claim C2: the claim fails on the code. Both UPDATE statements are issued on
`s.db`, not on the opened transaction, so each autocommits on its own. If
the balance-credit statement fails, the call reports an error, yet the
order row is already durably `PROCESSED` with point value 500 while the
owner's balance is still 0 — one effect committed without the other, which
the claim's both-or-neither atomicity forbids. -/
theorem c2_finalization_not_atomic :
    (UpdateOrderStatusRun planBalanceFails "79927398713" "PROCESSED" 500 dbA).2
      = false ∧
    orderStatus
      (UpdateOrderStatusRun planBalanceFails "79927398713" "PROCESSED" 500 dbA).1
      "79927398713" = some "PROCESSED" ∧
    orderAccrual
      (UpdateOrderStatusRun planBalanceFails "79927398713" "PROCESSED" 500 dbA).1
      "79927398713" = some 500 ∧
    userBalance
      (UpdateOrderStatusRun planBalanceFails "79927398713" "PROCESSED" 500 dbA).1
      "alice" = some 0 ∧
    (UpdateOrderStatusRun planBalanceFails "79927398713" "PROCESSED" 500 dbA).1
      ≠ dbA := by
  refine ⟨by decide, by decide, by decide, by decide, by decide⟩

/-- Operation sequence exhibiting a terminal-status overwrite: the order is
claimed, finalized `INVALID`, then — from a second queue entry produced by a
stale-reclaim race — finalized again with a scored `PROCESSED` response. -/
def overwriteOps : List SubsystemOp :=
  [SubsystemOp.claim,
   SubsystemOp.finalize "79927398713" ⟨"79927398713", "INVALID", 0⟩,
   SubsystemOp.finalize "79927398713" ⟨"79927398713", "PROCESSED", 10⟩]

/-- Store fixture with the order still in `NEW`. -/
def dbNew : DB := ⟨[alice], [⟨"79927398713", "NEW", 0, 5, 7, "alice"⟩]⟩

/-- Claim C7: the claim fails on the code. Along `overwriteOps` the order moves
`NEW → PROCESSING → INVALID` and then a later finalization overwrites the
terminal `INVALID` with `PROCESSED`: the finalization UPDATEs are guarded
only by the order number, never by the current status, so a terminal
status is not stable under further subsystem operations. -/
theorem c7_terminal_status_overwritten :
    orderStatus (runOps (overwriteOps.take 1) dbNew) "79927398713"
      = some "PROCESSING" ∧
    orderStatus (runOps (overwriteOps.take 2) dbNew) "79927398713"
      = some "INVALID" ∧
    orderStatus (runOps overwriteOps dbNew) "79927398713"
      = some "PROCESSED" := by
  refine ⟨by decide, by decide, by decide⟩

/-- Accrual-service oracle answering every query with a well-formed 200
response whose JSON body is the empty object `{}`. -/
def httpEmptyBody : Nat → HTTPResult :=
  fun _ => HTTPResult.response 200 (DecodeResult.ok zeroAccrualResponse)

/-- Claim C10: confirmed. A 200 response whose body lacks the `status` and
`order` fields decodes to the zero-valued response and is reported as
success, not as a protocol error; the zero status `""` falls through to the
scored-finalization branch, and the store update is invoked with the order
number taken from the response body (`""`), not with the dequeued
identifier. -/
theorem c10_empty_body_takes_scored_branch :
    fetchAccrualForOrder (httpEmptyBody 0) = Except.ok zeroAccrualResponse ∧
    zeroAccrualResponse.status = "" ∧
    (worker httpEmptyBody "79927398713" dbA).writes
      = [StoreWrite.updateStatus "" "" 0] ∧
    "" ≠ "79927398713" := by
  refine ⟨rfl, by decide, by decide, by decide⟩

/-- Formalization of C6 as the spec states it: the dispatch-loop claim
performed at time `now` moves each `NEW` order to `PROCESSING` and
refreshes its last-status-change timestamp to the claim time. -/
def claimRefreshesLastChanged : Prop :=
  ∀ (db : DB) (now : Int) (o : Order), o ∈ db.orders → o.status = "NEW" →
    orderStatus (GetNewOrders db).1 o.number = some "PROCESSING" ∧
    orderLastChanged (GetNewOrders db).1 o.number = some now

/-- Claim C6, counterexample: on `dbNew` the claim leaves the claimed order's
last-status-change timestamp at its old value 7, so for claim time 100 the
refresh part of the claim is false — the UPDATE sets only `status`. -/
theorem c6_counterexample : ¬ claimRefreshesLastChanged := by
  intro h
  have h2 := (h dbNew 100 ⟨"79927398713", "NEW", 0, 5, 7, "alice"⟩
    (by decide) rfl).2
  have h3 : orderLastChanged (GetNewOrders dbNew).1 "79927398713" = some 7 := by
    decide
  rw [h3] at h2
  exact absurd h2 (by decide)

/-- Claim C6, amended: the dispatch-loop claim transitions each `NEW` order to
`PROCESSING` but does not refresh the last-status-change timestamp — no
row's `last_changed_at` changes across the claim. -/
theorem c6_claim_leaves_timestamp (db : DB) (o : Order)
    (ho : o ∈ db.orders) (hnew : o.status = "NEW") :
    { o with status := "PROCESSING" } ∈ (GetNewOrders db).1.orders ∧
    (GetNewOrders db).1.orders.map (fun o => o.lastChangedAt)
      = db.orders.map (fun o => o.lastChangedAt) := by
  constructor
  · simp only [GetNewOrders]
    exact List.mem_map.mpr ⟨o, ho, by rw [if_pos hnew]⟩
  · simp [GetNewOrders, List.map_map, Function.comp_def, apply_ite]

/-- Claim C6, witness: the amended claim applied to the concrete store `dbNew`. -/
theorem c6_claim_leaves_timestamp_witness :
    ({ number := "79927398713", status := "PROCESSING", accrual := 0,
       uploadedAt := 5, lastChangedAt := 7, loginUsers := "alice" } : Order)
      ∈ (GetNewOrders dbNew).1.orders ∧
    (GetNewOrders dbNew).1.orders.map (fun o => o.lastChangedAt)
      = dbNew.orders.map (fun o => o.lastChangedAt) :=
  c6_claim_leaves_timestamp dbNew
    ⟨"79927398713", "NEW", 0, 5, 7, "alice"⟩ (by decide) rfl

/-- Claim C3: confirmed. If the accrual service answers every query with a 200
response whose status is `REGISTERED` or `PROCESSING`, the worker makes
exactly 1 + 3 = 4 queries with a backoff sleep between consecutive attempts
(3 sleeps), issues no store write, leaves the store untouched, and in
particular the order's status stays exactly what it was (`PROCESSING` for a
dequeued order). -/
theorem c3_retry_bound (http : Nat → HTTPResult) (orderID : String) (db : DB)
    (h : ∀ n, ∃ resp, http n = HTTPResult.response 200 (DecodeResult.ok resp) ∧
      (resp.status = "REGISTERED" ∨ resp.status = "PROCESSING")) :
    worker http orderID db = ⟨db, 4, 3, []⟩ ∧
    orderStatus (worker http orderID db).db orderID = orderStatus db orderID := by
  obtain ⟨r0, e0, s0⟩ := h 0
  obtain ⟨r1, e1, s1⟩ := h 1
  obtain ⟨r2, e2, s2⟩ := h 2
  obtain ⟨r3, e3, s3⟩ := h 3
  have main : worker http orderID db = ⟨db, 4, 3, []⟩ := by
    simp [worker, workerLoop, fetchAccrualForOrder, e0, e1, e2, e3,
      eq_true s0, eq_true s1, eq_true s2, eq_true s3]
  exact ⟨main, by rw [main]⟩

/-- Accrual-service oracle reporting `PROCESSING` on every query. -/
def httpAlwaysProcessing : Nat → HTTPResult :=
  fun _ => HTTPResult.response 200
    (DecodeResult.ok ⟨"79927398713", "PROCESSING", 0⟩)

/-- Claim C3, witness: the retry bound applied to a concrete always-`PROCESSING`
oracle and the concrete store `dbA`, whose order is `PROCESSING`. -/
theorem c3_retry_bound_witness :
    worker httpAlwaysProcessing "79927398713" dbA = ⟨dbA, 4, 3, []⟩ ∧
    orderStatus (worker httpAlwaysProcessing "79927398713" dbA).db "79927398713"
      = orderStatus dbA "79927398713" :=
  c3_retry_bound httpAlwaysProcessing "79927398713" dbA
    (fun _ => ⟨⟨"79927398713", "PROCESSING", 0⟩, rfl, Or.inr rfl⟩)

/-- Claim C8: confirmed. The accrual client returns the decoded response
exactly when the call reaches the service, the status code is 200 and the
body decodes (on a decode failure the Go code returns the decode error, so
the caller sees an error); whenever a query fails, at any attempt, the
retry loop abandons the item after that single query with no sleep, no
store write and the store unchanged; in particular an error on the first
query of a dequeued item abandons it outright, so the order stays in
whatever status it had — `PROCESSING` for a dispatched order. -/
theorem c8_accrual_client_contract :
    (∀ (http : HTTPResult) (resp : AccrualResponse),
      fetchAccrualForOrder http = Except.ok resp ↔
        http = HTTPResult.response 200 (DecodeResult.ok resp)) ∧
    (∀ (http : Nat → HTTPResult) (orderID : String) (rem att : Nat) (db : DB)
        (e : String),
      fetchAccrualForOrder (http att) = Except.error e →
      workerLoop http orderID rem att db = ⟨db, 1, 0, []⟩) ∧
    (∀ (http : Nat → HTTPResult) (orderID : String) (db : DB) (e : String),
      fetchAccrualForOrder (http 0) = Except.error e →
      worker http orderID db = ⟨db, 1, 0, []⟩) := by
  refine ⟨?_, ?_, ?_⟩
  · intro http resp
    cases http with
    | transportErr => simp [fetchAccrualForOrder]
    | response code body =>
      cases body with
      | ok r => by_cases hc : code = 200 <;> simp [fetchAccrualForOrder, hc]
      | fail => by_cases hc : code = 200 <;> simp [fetchAccrualForOrder, hc]
  · intro http orderID rem att db e he
    cases rem <;> simp [workerLoop, he]
  · intro http orderID db e he
    simp [worker, workerLoop, he]

/-- Claim C8, witness: the contract applied to a concrete successful response and
to a concrete transport-failing oracle on the store `dbA`. -/
theorem c8_accrual_client_contract_witness :
    fetchAccrualForOrder
        (HTTPResult.response 200 (DecodeResult.ok zeroAccrualResponse))
      = Except.ok zeroAccrualResponse ∧
    worker (fun _ => HTTPResult.transportErr) "79927398713" dbA
      = ⟨dbA, 1, 0, []⟩ :=
  ⟨(c8_accrual_client_contract.1
      (HTTPResult.response 200 (DecodeResult.ok zeroAccrualResponse))
      zeroAccrualResponse).mpr rfl,
   c8_accrual_client_contract.2.2 (fun _ => HTTPResult.transportErr)
     "79927398713" dbA "transport error" rfl⟩

/-- Order numbers of the rows claimed by one `GetNewOrders` call: the
numbers of exactly the rows whose status is `NEW`. -/
def claimedNumbers (db : DB) : List String :=
  (db.orders.filter (fun o => o.status = "NEW")).map (fun o => o.number)

/-- Claim C4: confirmed. On a dispatch tick, `fetchAndQueueOrders` appends to the
queue exactly the numbers of the `NEW` orders, as selected-and-transitioned
by the single `UPDATE ... RETURNING` statement: every `NEW` order is
`PROCESSING` in the resulting store and its number occurs exactly once in
the enqueued batch, while every order in any other status is untouched and
never enqueued. Order numbers are pairwise distinct (`order_number` is the
primary key). -/
theorem c4_claim_enqueues_new_orders_once (db : DB) (queue : List String)
    (hnodup : (db.orders.map (fun o => o.number)).Nodup) :
    (fetchAndQueueOrders db queue).2 = queue ++ claimedNumbers db ∧
    ∀ o ∈ db.orders,
      (o.status = "NEW" →
        { o with status := "PROCESSING" } ∈ (fetchAndQueueOrders db queue).1.orders ∧
        (claimedNumbers db).count o.number = 1) ∧
      (o.status ≠ "NEW" →
        o ∈ (fetchAndQueueOrders db queue).1.orders ∧
        (claimedNumbers db).count o.number = 0) := by
  have hclaimed : (GetNewOrders db).2.map (fun o => o.number) = claimedNumbers db := by
    simp [GetNewOrders, claimedNumbers, List.map_map, Function.comp_def]
  refine ⟨by simp [fetchAndQueueOrders, hclaimed], ?_⟩
  intro o ho
  have hnodupClaimed : (claimedNumbers db).Nodup := by
    have hsub : List.Sublist (claimedNumbers db)
        (db.orders.map (fun o => o.number)) := by
        unfold claimedNumbers
        exact (List.filter_sublist db.orders).map (fun o => o.number)
    exact hnodup.sublist hsub
  constructor
  · intro hnew
    constructor
    · simp only [fetchAndQueueOrders, GetNewOrders]
      exact List.mem_map.mpr ⟨o, ho, by rw [if_pos hnew]⟩
    · have hmem : o.number ∈ claimedNumbers db := by
        simp only [claimedNumbers]
        exact List.mem_map.mpr ⟨o, List.mem_filter.mpr ⟨ho, by simp [hnew]⟩, rfl⟩
      exact List.count_eq_one_of_mem hnodupClaimed hmem
  · intro hne
    constructor
    · simp only [fetchAndQueueOrders, GetNewOrders]
      exact List.mem_map.mpr ⟨o, ho, by rw [if_neg hne]⟩
    · rw [List.count_eq_zero]
      intro hmem
      simp only [claimedNumbers, List.mem_map] at hmem
      obtain ⟨o', hf', hnum⟩ := hmem
      have ho' := (List.mem_filter.mp hf').1
      have hs' : o'.status = "NEW" := by
        have := (List.mem_filter.mp hf').2
        simpa using this
      have heq : o' = o := List.inj_on_of_nodup_map hnodup ho' ho hnum
      exact hne (heq ▸ hs')

/-- Two-order store fixture: one `NEW` order and one already-terminal
order, with distinct numbers. -/
def dbMixed : DB :=
  ⟨[alice],
   [⟨"79927398713", "NEW", 0, 5, 7, "alice"⟩,
    ⟨"12345678903", "PROCESSED", 10, 1, 2, "alice"⟩]⟩

/-- Claim C4, witness: the claim applied to `dbMixed` with an empty queue. -/
theorem c4_claim_enqueues_new_orders_once_witness :
    (dbMixed.orders.map (fun o => o.number)).Nodup ∧
    ((fetchAndQueueOrders dbMixed []).2 = [] ++ claimedNumbers dbMixed ∧
    ∀ o ∈ dbMixed.orders,
      (o.status = "NEW" →
        { o with status := "PROCESSING" } ∈ (fetchAndQueueOrders dbMixed []).1.orders ∧
        (claimedNumbers dbMixed).count o.number = 1) ∧
      (o.status ≠ "NEW" →
        o ∈ (fetchAndQueueOrders dbMixed []).1.orders ∧
        (claimedNumbers dbMixed).count o.number = 0)) :=
  ⟨by decide, c4_claim_enqueues_new_orders_once dbMixed [] (by decide)⟩

/-- Claim C5: confirmed. On a dispatch tick at time `now`, `fetchAndQueueStaleOrders`
leaves the store unchanged (the reclaim is a pure `SELECT`, no status
transition or other write) and appends to the queue the numbers of exactly
the orders whose status is `PROCESSING` and whose last-status-change
timestamp is older than `now` minus the staleness threshold; orders changed
more recently, or in any other status, are not re-enqueued. -/
theorem c5_stale_reclaim_exact (now : Int) (db : DB) (queue : List String)
    (hnodup : (db.orders.map (fun o => o.number)).Nodup) :
    (fetchAndQueueStaleOrders now db queue).1 = db ∧
    (fetchAndQueueStaleOrders now db queue).2
      = queue ++ (GetStaleProcessingOrders now staleThreshold db).2.map
          (fun o => o.number) ∧
    ∀ o ∈ db.orders,
      (o.number ∈ (GetStaleProcessingOrders now staleThreshold db).2.map
          (fun o => o.number) ↔
        (o.status = "PROCESSING" ∧ o.lastChangedAt < now - staleThreshold)) := by
  refine ⟨rfl, rfl, ?_⟩
  intro o ho
  constructor
  · intro hmem
    simp only [GetStaleProcessingOrders, List.mem_map] at hmem
    obtain ⟨o', hf', hnum⟩ := hmem
    have ho' := (List.mem_filter.mp hf').1
    have hs' := (List.mem_filter.mp hf').2
    have heq : o' = o := List.inj_on_of_nodup_map hnodup ho' ho hnum
    simp only [decide_eq_true_eq] at hs'
    exact heq ▸ hs'
  · intro hcond
    simp only [GetStaleProcessingOrders, List.mem_map]
    exact ⟨o, List.mem_filter.mpr ⟨ho, by simp [hcond.1, hcond.2]⟩, rfl⟩

/-- Store fixture for the stale reclaim: two `PROCESSING` orders, one last
changed at time 7 (stale at `now = 200`) and one at time 150 (fresh). -/
def dbStale : DB :=
  ⟨[alice],
   [⟨"79927398713", "PROCESSING", 0, 5, 7, "alice"⟩,
    ⟨"12345678903", "PROCESSING", 0, 140, 150, "alice"⟩]⟩

/-- Claim C5, witness: the reclaim characterization applied to `dbStale` at time
200 with an empty queue. -/
theorem c5_stale_reclaim_exact_witness :
    (dbStale.orders.map (fun o => o.number)).Nodup ∧
    ((fetchAndQueueStaleOrders 200 dbStale []).1 = dbStale ∧
    (fetchAndQueueStaleOrders 200 dbStale []).2
      = [] ++ (GetStaleProcessingOrders 200 staleThreshold dbStale).2.map
          (fun o => o.number) ∧
    ∀ o ∈ dbStale.orders,
      (o.number ∈ (GetStaleProcessingOrders 200 staleThreshold dbStale).2.map
          (fun o => o.number) ↔
        (o.status = "PROCESSING" ∧ o.lastChangedAt < 200 - staleThreshold))) :=
  ⟨by decide, c5_stale_reclaim_exact 200 dbStale [] (by decide)⟩

/-- Claim C9: confirmed in the event-schedule model. For any run whose schedule is
some cancellation-free prefix of ticks followed by the cancellation signal,
the loop's outcome is fully determined by the prefix: the events after the
cancellation are never consulted (no further tick is served and nothing is
enqueued after the queue closes), the work queue is closed, `wg.Wait()` has
returned — every worker finished its current item and observed the closed
queue — and only then does `ProcessOrders` return. -/
theorem c9_cancellation_shutdown (pre post : List LoopEvent) (db : DB)
    (queue : List String) (t : Nat) (hpre : LoopEvent.cancel ∉ pre) :
    ProcessOrders (pre ++ LoopEvent.cancel :: post) db queue t =
      ⟨(runTicks pre db queue t).1, (runTicks pre db queue t).2.1,
       (runTicks pre db queue t).2.2, true, true, true⟩ := by
  induction pre generalizing db queue t with
  | nil => rfl
  | cons e rest ih =>
    cases e with
    | cancel => exact absurd (List.mem_cons_self _ _) hpre
    | tick now =>
      have h' : LoopEvent.cancel ∉ rest := fun hm =>
        hpre (List.mem_cons_of_mem _ hm)
      simpa only [List.cons_append, ProcessOrders, runTicks] using
        ih (dispatchTick now db queue).1 (dispatchTick now db queue).2
          (t + 1) h'

/-- Claim C9, witness: the shutdown theorem applied to a concrete schedule of one
tick, then cancellation, then a post-cancellation tick that is ignored. -/
theorem c9_cancellation_shutdown_witness :
    LoopEvent.cancel ∉ [LoopEvent.tick 200] ∧
    ProcessOrders ([LoopEvent.tick 200] ++ LoopEvent.cancel :: [LoopEvent.tick 300])
        dbNew [] 0 =
      ⟨(runTicks [LoopEvent.tick 200] dbNew [] 0).1,
       (runTicks [LoopEvent.tick 200] dbNew [] 0).2.1,
       (runTicks [LoopEvent.tick 200] dbNew [] 0).2.2, true, true, true⟩ :=
  ⟨by decide,
   c9_cancellation_shutdown [LoopEvent.tick 200] [LoopEvent.tick 300]
     dbNew [] 0 (by decide)⟩
